import Mathlib

/-!
Formalisation of `src/analyse_logarchive.py`.

Python strings are embedded as `List Char` (`PyStr`); rendered log output is a
`List PyStr`.  Python floats are embedded as rationals, with `round(x, 2)`
modelled by decimal round-half-to-even.  The analyzer functions
(`get_time_range`, `count_lines`, `count_subsystems`, `generate_csv`,
`find_logarchive_in_directory`) are translated directly; the filesystem and the
external `log show` subprocess are abstracted into an environment record so
that `main`'s control flow can be stated as a pure function.
-/

abbrev PyStr := List Char

/-- `s.data` as a `PyStr`; converts Lean string literals into the embedding. -/
def pyOf (s : String) : PyStr := s.data

/-- Python truthiness-plus-`l[0].isdigit()` test used by `get_time_range` and
`count_lines`: the line is non-empty and its first character is a digit. -/
def digitLine : PyStr → Bool
  | [] => false
  | c :: _ => c.isDigit

/-- `get_time_range` (lines 50–56): keep the lines whose first character is a
digit; if none, return the `(None, None)` pair, else the first and last. -/
def get_time_range (lines : List PyStr) : Option PyStr × Option PyStr :=
  let valid_lines := lines.filter digitLine
  if valid_lines.isEmpty then (none, none)
  else (valid_lines.head?, valid_lines.getLast?)

/-- `count_lines` (lines 59–60): number of lines whose first character is a
digit. -/
def count_lines (lines : List PyStr) : Nat :=
  (lines.filter digitLine).length

/-- Python `line.find(c, start)`: index of the first occurrence of `c` at
position `≥ start`, or `None` in place of `-1`. Helper that scans with an
explicit running index. -/
def findIdxAux (c : Char) : PyStr → Nat → Option Nat
  | [], _ => none
  | a :: l, i => if a = c then some i else findIdxAux c l (i + 1)

/-- Python `line.find(c, start)` (absolute index into `line`). -/
def pyFind (line : PyStr) (c : Char) (start : Nat) : Option Nat :=
  (findIdxAux c (line.drop start) 0).map (· + start)

/-- The bracket extraction inside `count_subsystems` (lines 66–69):
`start = line.find("[")`, `end = line.find("]", start)`,
label `line[start+1:end]` when both are found. -/
def extractSub (line : PyStr) : Option PyStr :=
  match pyFind line '[' 0 with
  | none => none
  | some s =>
    match pyFind line ']' s with
    | none => none
    | some e => some ((line.take e).drop (s + 1))

/-- One `counter[sub] += 1` step on the insertion-ordered association list that
models the Python `defaultdict(int)`. -/
def incr (m : List (PyStr × Nat)) (k : PyStr) : List (PyStr × Nat) :=
  match m with
  | [] => [(k, 1)]
  | (k', v) :: rest => if k' = k then (k', v + 1) :: rest else (k', v) :: incr rest k

/-- `count_subsystems` (lines 63–71): fold over the lines, incrementing the
tally at the extracted label when the bracket pair exists. -/
def count_subsystems (lines : List PyStr) : List (PyStr × Nat) :=
  lines.foldl
    (fun m line =>
      match extractSub line with
      | some sub => incr m sub
      | none => m) []

/-- Reading the tally as the map it represents: the count stored at `k`,
`0` when `k` is absent (the `defaultdict` default). -/
def lookupTally (m : List (PyStr × Nat)) (k : PyStr) : Nat :=
  match m.find? (fun p => p.1 = k) with
  | some p => p.2
  | none => 0

/-! ### Rounding

Python's `round(x, 2)` on the (exactly represented) values occurring here:
decimal rounding to two places, ties to even. -/

/-- Round a rational to the nearest integer, ties to even (Python `round`). -/
def rne (x : ℚ) : ℤ :=
  let f := ⌊x⌋
  let r := x - (f : ℚ)
  if r < 1 / 2 then f
  else if (1 : ℚ) / 2 < r then f + 1
  else if f % 2 = 0 then f else f + 1

/-- Python `round(x, 2)`. -/
def round2 (x : ℚ) : ℚ := (rne (x * 100) : ℚ) / 100

/-! ### Timestamp parsing (`parse_time`, lines 38–47)

`parse_time` prefers `dateutil.parser.parse`, an external flexible
calendar-timestamp parser; the embedding accepts the ISO forms relevant here
(`YYYY-MM-DD`, optionally followed by `HH:MM:SS` with a fractional part) and
returns microseconds since 1970-01-01. -/

def digitsVal (l : PyStr) : Nat :=
  l.foldl (fun acc c => 10 * acc + (c.toNat - 48)) 0

def isDigits (l : PyStr) : Bool := !l.isEmpty && l.all Char.isDigit

def digitsToNat? (l : PyStr) : Option Nat :=
  if isDigits l then some (digitsVal l) else none

def isLeap (y : Nat) : Bool := y % 4 == 0 && (y % 100 != 0 || y % 400 == 0)

def daysInMonth (y m : Nat) : Nat :=
  if m = 2 then (if isLeap y then 29 else 28)
  else if m = 4 ∨ m = 6 ∨ m = 9 ∨ m = 11 then 30
  else 31

/-- Day number of a civil date (proleptic Gregorian), `0001-01-01` ↦ `0`. -/
def rataDie (y m d : Nat) : Nat :=
  let y2 := if 2 < m then y else y - 1
  let m2 := if 2 < m then m - 3 else m + 9
  365 * y2 + y2 / 4 + y2 / 400 + (153 * m2 + 2) / 5 + d - y2 / 100 - 1

/-- Days since the Unix epoch 1970-01-01. -/
def epochDays (y m d : Nat) : Int := (rataDie y m d : Int) - 719468

def parseDate (s : PyStr) : Option Int :=
  match s.splitOn '-' with
  | [ys, ms, ds] => do
    let y ← digitsToNat? ys
    let mo ← digitsToNat? ms
    let d ← digitsToNat? ds
    if 1 ≤ y ∧ y ≤ 9999 ∧ 1 ≤ mo ∧ mo ≤ 12 ∧ 1 ≤ d ∧ d ≤ daysInMonth y mo then
      some (epochDays y mo d)
    else none
  | _ => none

/-- A fractional-seconds field as microseconds (`.000` ↦ 0, `.5` ↦ 500000). -/
def parseFrac (s : PyStr) : Option Nat :=
  if isDigits s then some (digitsVal s * 1000000 / 10 ^ s.length) else none

/-- `HH:MM:SS` with optional fraction, as microseconds into the day. -/
def parseTimeOfDay (s : PyStr) : Option Nat :=
  match s.splitOn ':' with
  | [hs, ms, ss] => do
    let h ← digitsToNat? hs
    let mi ← digitsToNat? ms
    match ss.splitOn '.' with
    | [sec] => do
      let sv ← digitsToNat? sec
      if h ≤ 23 ∧ mi ≤ 59 ∧ sv ≤ 59 then
        some ((h * 3600 + mi * 60 + sv) * 1000000)
      else none
    | [sec, fr] => do
      let sv ← digitsToNat? sec
      let fv ← parseFrac fr
      if h ≤ 23 ∧ mi ≤ 59 ∧ sv ≤ 59 then
        some ((h * 3600 + mi * 60 + sv) * 1000000 + fv)
      else none
    | _ => none
  | _ => none

/-- `parse_time`: timestamp string to a `datetime`, embedded as microseconds
since the epoch (`datetime` stores microsecond precision); `none` when the
string is not a calendar timestamp (the Python code raises there). -/
def parse_time (t : PyStr) : Option Int :=
  match t.splitOn ' ' with
  | [d] => (parseDate d).map (fun days => days * 86400000000)
  | [d, tod] => do
    let days ← parseDate d
    let micro ← parseTimeOfDay tod
    some (days * 86400000000 + (micro : Int))
  | _ => none

/-- Python `(dt2 - dt1).total_seconds()` on the embedded datetimes. -/
def totalSeconds (ts te : Int) : ℚ := ((te - ts : Int) : ℚ) / 1000000

/-- Python `line.split()[0]`: the first whitespace-delimited token (used at
line 169 on the first and last log lines). -/
def firstToken (l : PyStr) : PyStr :=
  (l.dropWhile Char.isWhitespace).takeWhile (fun c => !c.isWhitespace)

/-! ### The report record and `generate_csv` (lines 74–100)

A CSV cell keeps the Python value written into it (`csv.writer` stringifies
faithfully), so re-reading a cell is value recovery. -/

inductive Cell where
  | str (s : String)
  | line (l : PyStr)
  | rat (q : ℚ)
  | nat (n : Nat)
deriving DecidableEq

/-- The `info` dictionary built in `main` (lines 173–181). -/
structure Info where
  path : String
  size : ℚ
  start : PyStr
  endLine : PyStr
  ttl : ℚ
  lines : Nat
  subsystems : List (PyStr × Nat)
deriving DecidableEq

/-- Python `sorted(subs, key=subs.get, reverse=True)` on an insertion-ordered
tally with unique keys: stable sort by count, descending. -/
def sortedSubsystems (subs : List (PyStr × Nat)) : List (PyStr × Nat) :=
  subs.mergeSort (fun a b => decide (b.2 ≤ a.2))

def subsystemRow (p : PyStr × Nat) : List Cell := [Cell.line p.1, Cell.nat p.2]

/-- `generate_csv` as the list of rows it writes. -/
def generate_csv (info : Info) : List (List Cell) :=
  let size_mb := round2 (info.size / 1024)
  let size_gb := round2 (size_mb / 1024)
  let ttl_hours := round2 (info.ttl / 60)
  let ttl_days := round2 (ttl_hours / 24)
  [[Cell.str "Field", Cell.str "Value"],
   [Cell.str "Logarchive Path", Cell.str info.path],
   [Cell.str "Size (KB)", Cell.rat info.size],
   [Cell.str "Size (MB)", Cell.rat size_mb],
   [Cell.str "Size (GB)", Cell.rat size_gb],
   [Cell.str "First Log Line", Cell.line info.start],
   [Cell.str "Last Log Line", Cell.line info.endLine],
   [Cell.str "TTL (min)", Cell.rat info.ttl],
   [Cell.str "TTL (hours)", Cell.rat ttl_hours],
   [Cell.str "TTL (days)", Cell.rat ttl_days],
   [Cell.str "Total Events", Cell.nat info.lines],
   [Cell.str "Unique Subsystems", Cell.nat info.subsystems.length],
   [],
   [Cell.str "Subsystem", Cell.str "Event Count"]]
  ++ (sortedSubsystems info.subsystems).map subsystemRow

/-- Re-reading a scalar from the CSV: the value cell of the row whose first
cell is the field label. -/
def readField (rows : List (List Cell)) (name : String) : Option Cell :=
  match rows.find? (fun r => decide (r.head? = some (Cell.str name))) with
  | some r => (r.drop 1).head?
  | none => none

def parsePair : List Cell → Option (PyStr × Nat)
  | [Cell.line k, Cell.nat c] => some (k, c)
  | _ => none

/-- Re-reading the subsystem section: everything after the blank row and the
`Subsystem/Event Count` header, as label/count pairs. -/
def readSubsystemPairs (rows : List (List Cell)) : List (PyStr × Nat) :=
  ((rows.dropWhile (fun r => !r.isEmpty)).drop 2).filterMap parsePair

/-! ### Filesystem model and `find_logarchive_in_directory` (lines 20–27)

The code consumes the filesystem through two oracles only: the sequence of
`(root, dirs)` stops that `os.walk(base)` yields (top-down traversal order),
and `os.path.isdir` queries.  Both are embedded as data. -/

/-- Python `s.endswith(suffix)`. -/
def pyEndsWith (s suffix : String) : Bool :=
  suffix.data.isSuffixOf s.data

structure FS where
  walkStops : String → List (String × List String)
  isDirQ : String → Bool

/-- `d` qualifies at stop `root`: the name ends in `.logarchive` and
`os.path.isdir(os.path.join(root, d, "Persist"))` holds. -/
def isCandidateDir (fs : FS) (root d : String) : Bool :=
  pyEndsWith d ".logarchive" && fs.isDirQ (root ++ "/" ++ d ++ "/Persist")

/-- The inner `for d in dirs` loop at one `os.walk` stop: first qualifying
subdirectory name, as a full path. -/
def scanDirs (fs : FS) (root : String) (ds : List String) : Option String :=
  (ds.find? (isCandidateDir fs root)).map (fun d => root ++ "/" ++ d)

/-- `find_logarchive_in_directory`: first hit of the nested walk loops. -/
def find_logarchive_in_directory (fs : FS) (base : String) : Option String :=
  (fs.walkStops base).findSome? (fun rd => scanDirs fs rd.1 rd.2)

/-- Every qualifying subdirectory of the tree, in traversal order. -/
def walkCandidates (fs : FS) (base : String) : List String :=
  ((fs.walkStops base).map
    (fun rd => (rd.2.filter (isCandidateDir fs rd.1)).map (fun d => rd.1 ++ "/" ++ d))).flatten

/-! ### The driver `main` (lines 126–184)

The filesystem and the `log show` subprocess are abstracted into an
environment: `isDir` is `os.path.isdir(input)`, `tempDir` is the fresh
directory a `.tar.gz` input is extracted into, `fs` answers the walk and
`isdir` queries, `renderedLines` is the renderer's stdout line list (empty on
timeout) and `sizeKB` the measured size.  The outcome is which early-return
error fires, or the report record whose CSV is written. -/

structure Env where
  input : String
  isDir : Bool
  tempDir : String
  fs : FS
  renderedLines : List PyStr
  sizeKB : ℚ

inductive Outcome where
  | errNoLogarchiveInSysdiagnose
  | errNoLogarchiveInDirectory
  | errInvalidInput
  | errNoLogOutput
  | errNoTimestamps
  | errTimestampParse
  | report (info : Info)
deriving DecidableEq

/-- The `info` dictionary as filled in at lines 169–181. -/
def buildInfo (env : Env) (path : String) (s e : PyStr) (ts te : Int) : Info :=
  { path := path
    size := env.sizeKB
    start := s
    endLine := e
    ttl := round2 (totalSeconds ts te / 60)
    lines := count_lines env.renderedLines
    subsystems := count_subsystems env.renderedLines }

/-- Lines 157–184: everything after the input has been resolved to `path`. -/
def runPipeline (env : Env) (path : String) : Outcome :=
  if env.renderedLines.isEmpty then Outcome.errNoLogOutput
  else
    match get_time_range env.renderedLines with
    | (some s, some e) =>
      match parse_time (firstToken e), parse_time (firstToken s) with
      | some te, some ts => Outcome.report (buildInfo env path s e ts te)
      | _, _ => Outcome.errTimestampParse
    | _ => Outcome.errNoTimestamps

/-- Lines 135–155 (input resolution) feeding into the pipeline. -/
def mainRun (env : Env) : Outcome :=
  if pyEndsWith env.input ".tar.gz" then
    match find_logarchive_in_directory env.fs env.tempDir with
    | none => Outcome.errNoLogarchiveInSysdiagnose
    | some p => runPipeline env p
  else if pyEndsWith env.input ".logarchive" && env.isDir then
    runPipeline env env.input
  else if env.isDir then
    match find_logarchive_in_directory env.fs env.input with
    | none => Outcome.errNoLogarchiveInDirectory
    | some p => runPipeline env p
  else Outcome.errInvalidInput

/-! ### Concrete environments used to instantiate the theorems -/

/-- A filesystem in which every directory is empty. -/
def emptyFS : FS := { walkStops := fun b => [(b, [])], isDirQ := fun _ => false }

/-- A run on a logarchive directory with two rendered lines. -/
def envOK : Env :=
  { input := "x.logarchive"
    isDir := true
    tempDir := "/tmp/t"
    fs := emptyFS
    renderedLines := [pyOf "2024-01-01 aa[A] m", pyOf "2024-01-02 bb[A] n"]
    sizeKB := 5 }

/-- Same run but the renderer returned nothing (e.g. it timed out). -/
def envEmpty : Env := { envOK with renderedLines := [] }

/-- An input path that is neither `.tar.gz`, nor a directory. -/
def envBad : Env := { envOK with input := "x.txt", isDir := false }

/-- A `.tar.gz` input whose extraction contains no qualifying logarchive. -/
def envTar : Env := { envOK with input := "cap.tar.gz" }

/-- A fully populated report record with a two-entry tally. -/
def infoTwo : Info :=
  { path := "p"
    size := 5
    start := pyOf "s"
    endLine := pyOf "e"
    ttl := 90
    lines := 2
    subsystems := [(pyOf "A", 1), (pyOf "B", 3)] }

-- = Theorems. =

/-- Tally step lemma: `incr` adds one at `k` and leaves other keys alone. -/
theorem lookupTally_incr (m : List (PyStr × Nat)) (k j : PyStr) :
    lookupTally (incr m k) j = lookupTally m j + (if k = j then 1 else 0) := by
  induction m with
  | nil =>
    by_cases h : k = j <;> simp [incr, lookupTally, List.find?, h]
  | cons p rest ih =>
    obtain ⟨k', v⟩ := p
    by_cases hk : k' = k
    · subst hk
      by_cases h : k' = j <;> simp [incr, lookupTally, List.find?, h]
    · by_cases h : k' = j
      · subst h
        simp [incr, lookupTally, List.find?, hk]
        have : ¬ k = k' := fun hh => hk hh.symm
        simp [this]
      · simp only [incr, if_neg hk]
        simp only [lookupTally, List.find?] at ih ⊢
        simp [h, ih]

/-- Fold invariant for `count_subsystems`. -/
theorem lookupTally_foldl (lines : List PyStr) (m : List (PyStr × Nat)) (k : PyStr) :
    lookupTally
      (lines.foldl
        (fun m line =>
          match extractSub line with
          | some sub => incr m sub
          | none => m) m) k
    = lookupTally m k + lines.countP (fun l => extractSub l = some k) := by
  induction lines generalizing m with
  | nil => simp
  | cons l rest ih =>
    cases h : extractSub l with
    | none =>
      simp only [List.foldl_cons, h]
      rw [ih]
      simp [List.countP_cons, h]
    | some sub =>
      simp only [List.foldl_cons, h]
      rw [ih, lookupTally_incr]
      by_cases hs : sub = k
      · subst hs; simp [List.countP_cons, h]; omega
      · have : ¬ (extractSub l = some k) := by simp [h, hs]
        simp [List.countP_cons, h, hs]

/-- `get_time_range` in closed form: head and last of the filtered list. -/
theorem get_time_range_eq (lines : List PyStr) :
    get_time_range lines
      = ((lines.filter digitLine).head?, (lines.filter digitLine).getLast?) := by
  cases hl : lines.filter digitLine with
  | nil => simp [get_time_range, hl]
  | cons a l => simp [get_time_range, hl]

/-- Inversion: a report out of the pipeline pins down every field. -/
theorem runPipeline_report {env : Env} {path : String} {info : Info}
    (h : runPipeline env path = Outcome.report info) :
    ∃ s e ts te,
      get_time_range env.renderedLines = (some s, some e)
      ∧ parse_time (firstToken e) = some te
      ∧ parse_time (firstToken s) = some ts
      ∧ info = buildInfo env path s e ts te := by
  unfold runPipeline at h
  split at h
  · exact Outcome.noConfusion h
  · split at h
    next s e heq =>
      split at h
      next te ts hte hts =>
        injection h with h
        exact ⟨s, e, ts, te, heq, hte, hts, h.symm⟩
      next => exact Outcome.noConfusion h
    next => exact Outcome.noConfusion h

/-- Inversion: a report out of `main` came from the pipeline. -/
theorem mainRun_report {env : Env} {info : Info}
    (h : mainRun env = Outcome.report info) :
    ∃ path, runPipeline env path = Outcome.report info := by
  unfold mainRun at h
  split at h
  · split at h
    · exact Outcome.noConfusion h
    · exact ⟨_, h⟩
  · split at h
    · exact ⟨_, h⟩
    · split at h
      · split at h
        · exact Outcome.noConfusion h
        · exact ⟨_, h⟩
      · exact Outcome.noConfusion h

theorem filterMap_parsePair_map (l : List (PyStr × Nat)) :
    List.filterMap parsePair (l.map subsystemRow) = l := by
  induction l with
  | nil => rfl
  | cons p rest ih => simp [parsePair, subsystemRow, List.filterMap_cons, ih]

/-- Re-reading the subsystem section gives back exactly the sorted tally. -/
theorem readSubsystemPairs_generate (info : Info) :
    readSubsystemPairs (generate_csv info) = sortedSubsystems info.subsystems := by
  have h : readSubsystemPairs (generate_csv info)
      = List.filterMap parsePair ((sortedSubsystems info.subsystems).map subsystemRow) := rfl
  rw [h, filterMap_parsePair_map]

theorem sortedSubsystems_perm (subs : List (PyStr × Nat)) :
    (sortedSubsystems subs).Perm subs :=
  List.mergeSort_perm subs _

theorem sortedSubsystems_sorted (subs : List (PyStr × Nat)) :
    List.Pairwise (fun a b : PyStr × Nat => b.2 ≤ a.2) (sortedSubsystems subs) := by
  have h : List.Pairwise (fun a b : PyStr × Nat => decide (b.2 ≤ a.2) = true)
      (sortedSubsystems subs) := by
    unfold sortedSubsystems
    exact List.sorted_mergeSort
      (fun a b c hab hbc => by
        simp only [decide_eq_true_eq] at hab hbc ⊢
        omega)
      (fun a b => by rcases Nat.le_total b.2 a.2 with h | h <;> simp [h])
      subs
  exact h.imp (fun hab => by simpa using hab)

theorem find?_map_head? {α β : Type} (p : α → Bool) (f : α → β) (l : List α) :
    (l.find? p).map f = ((l.filter p).map f).head? := by
  induction l with
  | nil => rfl
  | cons a l ih =>
    cases h : p a with
    | true =>
      rw [List.find?_cons_of_pos _ h, List.filter_cons_of_pos h]
      rfl
    | false =>
      have h' : ¬ p a = true := by simp [h]
      rw [List.find?_cons_of_neg _ h', List.filter_cons_of_neg h']
      exact ih

theorem findSome?_scan (fs : FS) (stops : List (String × List String)) :
    stops.findSome? (fun rd => scanDirs fs rd.1 rd.2)
      = ((stops.map
          (fun rd => (rd.2.filter (isCandidateDir fs rd.1)).map
            (fun d => rd.1 ++ "/" ++ d))).flatten).head? := by
  induction stops with
  | nil => rfl
  | cons rd rest ih =>
    rw [List.findSome?_cons, List.map_cons, List.flatten_cons, List.head?_append, ← ih]
    have hs : scanDirs fs rd.1 rd.2
        = ((rd.2.filter (isCandidateDir fs rd.1)).map (fun d => rd.1 ++ "/" ++ d)).head? := by
      unfold scanDirs
      exact find?_map_head? _ _ _
    rw [hs]
    cases ((rd.2.filter (isCandidateDir fs rd.1)).map (fun d => rd.1 ++ "/" ++ d)).head? with
    | none => simp [Option.or]
    | some v => simp [Option.or]

/-! ### The claims -/

/-- C1: the subsystem tally maps each label to the number of lines whose first
`[` is followed by a later `]` with exactly that label strictly between them;
lines without such a bracket pair contribute nothing; on three lines carrying
`[A]`, `[B]`, `[A]` the tally is `{A ↦ 2, B ↦ 1}`. -/
theorem spec_c1 :
    (∀ (lines : List PyStr) (label : PyStr),
        lookupTally (count_subsystems lines) label
          = lines.countP (fun l => extractSub l = some label))
    ∧ count_subsystems [pyOf "x[A] foo", pyOf "[B] bar", pyOf "y[A] baz"]
        = [(pyOf "A", 2), (pyOf "B", 1)]
    ∧ lookupTally (count_subsystems [pyOf "x[A] foo", pyOf "[B] bar", pyOf "y[A] baz"])
        (pyOf "A") = 2
    ∧ lookupTally (count_subsystems [pyOf "x[A] foo", pyOf "[B] bar", pyOf "y[A] baz"])
        (pyOf "B") = 1 := by
  refine ⟨?_, by decide, by decide, by decide⟩
  intro lines label
  have h := lookupTally_foldl lines [] label
  simp only [count_subsystems]
  rw [h]
  exact Nat.zero_add _

/-- C2: the line count equals the number of digit-leading lines, and that
value is what the CSV's Total Events row carries for every report `main`
produces. -/
theorem spec_c2 :
    (∀ (lines : List PyStr) (N M : Nat),
        (lines.filter digitLine).length = N →
        (lines.filter (fun l => !digitLine l)).length = M →
        count_lines lines = N)
    ∧ (∀ info : Info,
        readField (generate_csv info) "Total Events" = some (Cell.nat info.lines))
    ∧ (∀ (env : Env) (info : Info), mainRun env = Outcome.report info →
        info.lines = count_lines env.renderedLines) := by
  refine ⟨fun lines N M h1 _ => h1, fun info => rfl, ?_⟩
  intro env info h
  obtain ⟨p, hp⟩ := mainRun_report h
  obtain ⟨s, e, ts, te, _, _, _, hinfo⟩ := runPipeline_report hp
  subst hinfo
  rfl

/-- C2 witness: a concrete line set with two digit-leading lines counts to 2,
and a concrete full run writes its line count into the report. -/
theorem spec_c2_witness :
    count_lines [pyOf "1abc", pyOf "xyz", pyOf "2d"] = 2
    ∧ ∃ info, mainRun envOK = Outcome.report info
        ∧ info.lines = count_lines envOK.renderedLines :=
  ⟨spec_c2.1 [pyOf "1abc", pyOf "xyz", pyOf "2d"] 2 1 rfl rfl,
   ⟨_, rfl, spec_c2.2.2 envOK _ rfl⟩⟩

/-- C3: the TTL of every produced report is the difference of the parsed last
and first timestamps in minutes rounded to two decimals, the CSV derives hours
as `ttl/60` and days as `hours/24` (each rounded to two decimals), and on the
timestamps `2024-01-01 00:00:00.000` and `2024-01-01 01:30:00.000` the three
values are exactly 90.0, 1.5 and 0.06. -/
theorem spec_c3 :
    (∀ (env : Env) (info : Info), mainRun env = Outcome.report info →
      ∃ ts te, parse_time (firstToken info.start) = some ts
        ∧ parse_time (firstToken info.endLine) = some te
        ∧ info.ttl = round2 (totalSeconds ts te / 60))
    ∧ (∀ info : Info,
        readField (generate_csv info) "TTL (min)" = some (Cell.rat info.ttl)
        ∧ readField (generate_csv info) "TTL (hours)"
            = some (Cell.rat (round2 (info.ttl / 60)))
        ∧ readField (generate_csv info) "TTL (days)"
            = some (Cell.rat (round2 (round2 (info.ttl / 60) / 24))))
    ∧ parse_time (pyOf "2024-01-01 00:00:00.000") = some 1704067200000000
    ∧ parse_time (pyOf "2024-01-01 01:30:00.000") = some 1704072600000000
    ∧ round2 (totalSeconds 1704067200000000 1704072600000000 / 60) = 90
    ∧ round2 ((90 : ℚ) / 60) = 3 / 2
    ∧ round2 ((3 : ℚ) / 2 / 24) = 3 / 50 := by
  refine ⟨?_, fun info => ⟨rfl, rfl, rfl⟩, by decide, by decide, ?_, ?_, ?_⟩
  · intro env info h
    obtain ⟨p, hp⟩ := mainRun_report h
    obtain ⟨s, e, ts, te, _, hte, hts, hinfo⟩ := runPipeline_report hp
    subst hinfo
    exact ⟨ts, te, hts, hte, rfl⟩
  · norm_num [round2, rne, totalSeconds]
  · norm_num [round2, rne]
  · norm_num [round2, rne]

/-- C3 witness: a concrete run produces a report whose TTL is the rounded
minute difference of its parsed first and last timestamps. -/
theorem spec_c3_witness :
    ∃ info, mainRun envOK = Outcome.report info
      ∧ ∃ ts te, parse_time (firstToken info.start) = some ts
          ∧ parse_time (firstToken info.endLine) = some te
          ∧ info.ttl = round2 (totalSeconds ts te / 60) :=
  ⟨_, rfl, spec_c3.1 envOK _ rfl⟩

/-- C4: the time-range operation filters to digit-leading lines, returns the
`None/None` pair when none exists, and otherwise the first and last such
line. -/
theorem spec_c4 :
    ∀ lines : List PyStr,
      (lines.filter digitLine = [] → get_time_range lines = (none, none))
      ∧ get_time_range lines
          = ((lines.filter digitLine).head?, (lines.filter digitLine).getLast?) :=
  fun lines =>
    ⟨fun h => by rw [get_time_range_eq, h] ; rfl, get_time_range_eq lines⟩

/-- C4 witness: a list with no digit-leading line yields the None/None pair. -/
theorem spec_c4_witness : get_time_range [pyOf "abc"] = (none, none) :=
  (spec_c4 [pyOf "abc"]).1 rfl

/-- C5: the CSV's subsystem section lists every tally entry exactly once (a
permutation of the tally; duplicate-free with exactly the tally's pairs when
the tally keys are unique) and its rows are sorted by count in descending
order. -/
theorem spec_c5 :
    ∀ info : Info,
      (readSubsystemPairs (generate_csv info)).Perm info.subsystems
      ∧ List.Pairwise (fun a b : PyStr × Nat => b.2 ≤ a.2)
          (readSubsystemPairs (generate_csv info))
      ∧ ((info.subsystems.map Prod.fst).Nodup →
          (readSubsystemPairs (generate_csv info)).Nodup
          ∧ ∀ p, p ∈ readSubsystemPairs (generate_csv info)
              ↔ p ∈ info.subsystems) := by
  intro info
  rw [readSubsystemPairs_generate]
  refine ⟨sortedSubsystems_perm _, sortedSubsystems_sorted _, ?_⟩
  intro hnodup
  have hperm := sortedSubsystems_perm info.subsystems
  exact ⟨hperm.nodup_iff.mpr (List.Nodup.of_map Prod.fst hnodup),
         fun p => hperm.mem_iff⟩

/-- C5 witness: on a concrete two-entry tally with distinct keys, the written
section has no duplicate row and carries exactly the tally's pairs. -/
theorem spec_c5_witness :
    (readSubsystemPairs (generate_csv infoTwo)).Nodup
    ∧ ((pyOf "A", 1) ∈ readSubsystemPairs (generate_csv infoTwo)
        ↔ (pyOf "A", 1) ∈ infoTwo.subsystems) :=
  ⟨((spec_c5 infoTwo).2.2 (by decide)).1,
   ((spec_c5 infoTwo).2.2 (by decide)).2 (pyOf "A", 1)⟩

/-- C6: when the renderer produced no lines, the pipeline stops with the
no-log-output error and no report (hence no CSV) is ever produced. -/
theorem spec_c6 :
    ∀ env : Env, env.renderedLines = [] →
      (∀ path, runPipeline env path = Outcome.errNoLogOutput)
      ∧ ∀ info : Info, mainRun env ≠ Outcome.report info := by
  intro env h
  have hp : ∀ path, runPipeline env path = Outcome.errNoLogOutput := by
    intro path
    simp [runPipeline, h]
  refine ⟨hp, fun info hc => ?_⟩
  obtain ⟨p, hrp⟩ := mainRun_report hc
  rw [hp p] at hrp
  exact Outcome.noConfusion hrp

/-- C6 witness: a concrete run with empty renderer output aborts and writes
nothing. -/
theorem spec_c6_witness :
    runPipeline envEmpty "p" = Outcome.errNoLogOutput
    ∧ mainRun envEmpty ≠ Outcome.report infoTwo :=
  ⟨(spec_c6 envEmpty rfl).1 "p", (spec_c6 envEmpty rfl).2 infoTwo⟩

/-- C7: an input that is not `.tar.gz`, not a `.logarchive` directory and not
a directory at all makes the run abort with the invalid-input error, so no
CSV is written. -/
theorem spec_c7 :
    ∀ env : Env,
      pyEndsWith env.input ".tar.gz" = false →
      (pyEndsWith env.input ".logarchive" && env.isDir) = false →
      env.isDir = false →
      mainRun env = Outcome.errInvalidInput
      ∧ ∀ info : Info, mainRun env ≠ Outcome.report info := by
  intro env h1 h2 h3
  have hm : mainRun env = Outcome.errInvalidInput := by
    simp [mainRun, h1, h2, h3]
  exact ⟨hm, fun info hc => by rw [hm] at hc; exact Outcome.noConfusion hc⟩

/-- C7 witness: the concrete invalid input aborts with the invalid-input
error. -/
theorem spec_c7_witness : mainRun envBad = Outcome.errInvalidInput :=
  (spec_c7 envBad (by decide) (by decide) (by decide)).1

/-- C8: the directory search returns `None` or the first subdirectory in
traversal order that ends in `.logarchive` and contains a `Persist`
subdirectory; and a `.tar.gz` run whose search comes back empty aborts with
the no-logarchive-found error. -/
theorem spec_c8 :
    (∀ (fs : FS) (base : String),
        find_logarchive_in_directory fs base = (walkCandidates fs base).head?)
    ∧ (∀ env : Env, pyEndsWith env.input ".tar.gz" = true →
        find_logarchive_in_directory env.fs env.tempDir = none →
        mainRun env = Outcome.errNoLogarchiveInSysdiagnose) := by
  constructor
  · intro fs base
    unfold find_logarchive_in_directory walkCandidates
    exact findSome?_scan fs _
  · intro env h1 h2
    simp [mainRun, h1, h2]

/-- C8 witness: a concrete `.tar.gz` run over an empty extraction tree aborts
with the no-logarchive-found error. -/
theorem spec_c8_witness : mainRun envTar = Outcome.errNoLogarchiveInSysdiagnose :=
  spec_c8.2 envTar (by decide) (by decide)

/-- C9: re-reading the written CSV recovers every scalar field of the report
record and the subsystem pairs up to row order. -/
theorem spec_c9 :
    ∀ info : Info,
      readField (generate_csv info) "Logarchive Path" = some (Cell.str info.path)
      ∧ readField (generate_csv info) "Size (KB)" = some (Cell.rat info.size)
      ∧ readField (generate_csv info) "Size (MB)"
          = some (Cell.rat (round2 (info.size / 1024)))
      ∧ readField (generate_csv info) "Size (GB)"
          = some (Cell.rat (round2 (round2 (info.size / 1024) / 1024)))
      ∧ readField (generate_csv info) "First Log Line" = some (Cell.line info.start)
      ∧ readField (generate_csv info) "Last Log Line" = some (Cell.line info.endLine)
      ∧ readField (generate_csv info) "TTL (min)" = some (Cell.rat info.ttl)
      ∧ readField (generate_csv info) "TTL (hours)"
          = some (Cell.rat (round2 (info.ttl / 60)))
      ∧ readField (generate_csv info) "TTL (days)"
          = some (Cell.rat (round2 (round2 (info.ttl / 60) / 24)))
      ∧ readField (generate_csv info) "Total Events" = some (Cell.nat info.lines)
      ∧ readField (generate_csv info) "Unique Subsystems"
          = some (Cell.nat info.subsystems.length)
      ∧ (readSubsystemPairs (generate_csv info)).Perm info.subsystems :=
  fun info =>
    ⟨rfl, rfl, rfl, rfl, rfl, rfl, rfl, rfl, rfl, rfl, rfl,
     by rw [readSubsystemPairs_generate]; exact sortedSubsystems_perm _⟩

/-- C10: the time range is a non-None pair exactly when the line count is
positive — both operations filter by the same digit-leading predicate. -/
theorem spec_c10 :
    ∀ lines : List PyStr,
      ((get_time_range lines).1 ≠ none ∧ (get_time_range lines).2 ≠ none)
      ↔ 0 < count_lines lines := by
  intro lines
  rw [get_time_range_eq]
  unfold count_lines
  cases hl : lines.filter digitLine with
  | nil => simp
  | cons a l =>
    simp only [List.head?_cons, List.length_cons]
    constructor
    · intro
      exact Nat.succ_pos _
    · intro
      refine ⟨by simp, ?_⟩
      rw [← Option.isSome_iff_ne_none, List.getLast?_isSome]
      simp
